import Mathlib

/-!
Shallow embedding of the GPU abstraction layer of mochi-shell:
src/crates/mochi-rs/src/core/gpu/gpucontext.c and
src/crates/mochi-rs/src/core/gpu/passes.c.

The embedding models the FreeBSD build of the sources (the repository is
mochi-bsd), i.e. the preprocessor configuration USE_EGL = 1, HAS_OPENGL = 1,
and the defined(__FreeBSD__) branch of try_init_opengl.

Modelling conventions:
- A C `GpuContext*` becomes `Option GpuContext`: `none` is the NULL pointer.
- The native GL/EGL library is a state machine: `GLState` holds the mutable
  server state touched by the C code (blend configuration, clear color,
  viewport, bound objects, the set of live shader/program/buffer/texture
  objects, and a log `calls` of the GL calls issued, oldest first).
  Object names issued by glCreateShader/glCreateProgram/glGenBuffers/
  glGenTextures are modelled as fresh identifiers from the counter
  `next_id` (real GL object names are nonzero, so models start at `next_id = 1`).
- Results of backend queries the C code branches on (compile status, link
  status, glGetUniformLocation) are supplied by an environment `GLEnv`,
  playing the role of a test-double backend.
- C `float` parameters are modelled as `Rat`; the C cast `(int32_t)f`
  truncates toward zero, which is `c_cast_i32` below. Reading a float past
  the end of the parameter array is undefined behaviour in C; the model
  returns 0 for such a read and raises the `oob` flag of the interpreter
  result, so out-of-bounds consumption stays observable.
-/

/-- Backend kinds, from the GpuBackendType enum of gpucontext.h. -/
inductive GpuBackendType where
  | GPU_BACKEND_NONE
  | GPU_BACKEND_VULKAN
  | GPU_BACKEND_OPENGL
  | GPU_BACKEND_OPENGLES
  deriving DecidableEq, Repr

/-- The struct GpuContext of gpucontext.c (EGL handles live in `GLState`). -/
structure GpuContext where
  backend_type : GpuBackendType
  width : Nat
  height : Nat
  current_program : Nat
  device_name : String
  vendor_name : String
  driver_version : String
  deriving DecidableEq, Repr

/-- GL blend factors used by gpu_composite_pass. -/
inductive BlendFactor where
  | GL_SRC_ALPHA
  | GL_ONE_MINUS_SRC_ALPHA
  | GL_DST_COLOR
  | GL_ZERO
  | GL_ONE
  | GL_ONE_MINUS_SRC_COLOR
  deriving DecidableEq, Repr

/-- Effectful GL/EGL calls issued by the C code, logged in order. -/
inductive GLCall where
  | glClearColor (r g b a : Rat)
  | glClearBuffers
  | glViewport (x y : Int) (w h : Nat)
  | eglSwapBuffers
  | glEnableBlend
  | glBlendFunc (src dst : BlendFactor)
  | glUseProgram (p : Nat)
  | glDeleteProgram (p : Nat)
  | glUniform1f (loc : Int) (v : Rat)
  | glUniform2f (loc : Int) (x y : Rat)
  | glUniform3f (loc : Int) (x y z : Rat)
  | glUniform4f (loc : Int) (x y z w : Rat)
  | glUniformMatrix4fv (loc : Int) (m : List Rat)
  | glBindBuffer (b : Nat)
  | glBufferData (size : Nat) (data : List Rat)
  | glDeleteBuffers (b : Nat)
  | glActiveTexture (slot : Nat)
  | glBindTexture (t : Nat)
  | glTexImage2D (w h : Nat) (data : Option (List Nat))
  | glTexParameterMinLinear
  | glTexParameterMagLinear
  | glDeleteTextures (t : Nat)
  deriving DecidableEq, Repr

/-- State of the native GL library as far as the C code touches it. -/
structure GLState where
  blend_enabled : Bool
  blend_src : BlendFactor
  blend_dst : BlendFactor
  clear_color : Rat × Rat × Rat × Rat
  viewport_rect : Int × Int × Nat × Nat
  bound_program : Nat
  bound_array_buffer : Nat
  active_texture_slot : Nat
  bound_texture_2d : Nat
  next_id : Nat
  live_shaders : List Nat
  live_programs : List Nat
  live_buffers : List Nat
  live_textures : List Nat
  calls : List GLCall
  deriving DecidableEq, Repr

/-- Well-formedness of the GLState object store: the fresh-name counter is
nonzero (GLState object names are nonzero) and dominates every live name. -/
def GLState.wf (gl : GLState) : Bool :=
  0 < gl.next_id
    && gl.live_shaders.all (fun x => x < gl.next_id)
    && gl.live_programs.all (fun x => x < gl.next_id)

/-- Test-double backend: the query results the C code branches on
(glGetShaderiv GL_COMPILE_STATUS keyed by the source text, glGetProgramiv
GL_LINK_STATUS keyed by the two attached sources, glGetUniformLocation
keyed by program name and uniform name). -/
structure GLEnv where
  vertex_compile_ok : String → Bool
  fragment_compile_ok : String → Bool
  link_ok : String → String → Bool
  uniform_loc : Nat → String → Int

/-- gpu_context_is_valid of gpucontext.c:
`ctx != NULL && ctx->backend_type != GPU_BACKEND_NONE`. -/
def gpu_context_is_valid (ctx : Option GpuContext) : Bool :=
  match ctx with
  | none => false
  | some c => c.backend_type ≠ GpuBackendType.GPU_BACKEND_NONE

/-- gpu_context_get_backend of gpucontext.c. -/
def gpu_context_get_backend (ctx : Option GpuContext) : GpuBackendType :=
  match ctx with
  | none => GpuBackendType.GPU_BACKEND_NONE
  | some c => c.backend_type

/-- gpu_context_clear of gpucontext.c: null-guarded; acts only on the
OPENGLES backend (glClearColor then glClear of color and depth buffers). -/
def gpu_context_clear (ctx : Option GpuContext) (r g b a : Rat) (gl : GLState) : GLState :=
  match ctx with
  | none => gl
  | some c =>
    if c.backend_type = GpuBackendType.GPU_BACKEND_OPENGLES then
      { gl with clear_color := (r, g, b, a),
                calls := gl.calls ++ [GLCall.glClearColor r g b a, GLCall.glClearBuffers] }
    else gl

/-- gpu_context_viewport of gpucontext.c: on the OPENGLES backend it calls
glViewport and also stores the new dimensions into the context. -/
def gpu_context_viewport (ctx : Option GpuContext) (x y : Int) (w h : Nat) (gl : GLState) :
    Option GpuContext × GLState :=
  match ctx with
  | none => (none, gl)
  | some c =>
    if c.backend_type = GpuBackendType.GPU_BACKEND_OPENGLES then
      (some { c with width := w, height := h },
       { gl with viewport_rect := (x, y, w, h),
                 calls := gl.calls ++ [GLCall.glViewport x y w h] })
    else (some c, gl)

/-- gpu_context_present of gpucontext.c: eglSwapBuffers on OPENGLES. -/
def gpu_context_present (ctx : Option GpuContext) (gl : GLState) : GLState :=
  match ctx with
  | none => gl
  | some c =>
    if c.backend_type = GpuBackendType.GPU_BACKEND_OPENGLES then
      { gl with calls := gl.calls ++ [GLCall.eglSwapBuffers] }
    else gl

/-- gpu_context_create_shader of gpucontext.c. Mirrors the source order:
compile the vertex stage (delete it and return 0 on failure), compile the
fragment stage (delete both stages and return 0 on failure), create and
link the program (delete both stages and the program and return 0 on link
failure), else delete both stages and return the program name. -/
def gpu_context_create_shader (env : GLEnv) (ctx : Option GpuContext)
    (vertex_src fragment_src : Option String) (gl : GLState) : GLState × Nat :=
  match ctx, vertex_src, fragment_src with
  | some c, some vsrc, some fsrc =>
    if c.backend_type = GpuBackendType.GPU_BACKEND_OPENGLES then
      let vs := gl.next_id
      let gl1 := { gl with next_id := gl.next_id + 1,
                           live_shaders := gl.live_shaders ++ [vs] }
      if !(env.vertex_compile_ok vsrc) then
        ({ gl1 with live_shaders := gl1.live_shaders.erase vs }, 0)
      else
        let fs := gl1.next_id
        let gl2 := { gl1 with next_id := gl1.next_id + 1,
                              live_shaders := gl1.live_shaders ++ [fs] }
        if !(env.fragment_compile_ok fsrc) then
          ({ gl2 with live_shaders := (gl2.live_shaders.erase vs).erase fs }, 0)
        else
          let prog := gl2.next_id
          let gl3 := { gl2 with next_id := gl2.next_id + 1,
                                live_programs := gl2.live_programs ++ [prog] }
          if !(env.link_ok vsrc fsrc) then
            ({ gl3 with live_shaders := (gl3.live_shaders.erase vs).erase fs,
                        live_programs := gl3.live_programs.erase prog }, 0)
          else
            ({ gl3 with live_shaders := (gl3.live_shaders.erase vs).erase fs }, prog)
    else (gl, 0)
  | _, _, _ => (gl, 0)

/-- gpu_context_use_shader of gpucontext.c: glUseProgram and record the
handle as the context's current program. -/
def gpu_context_use_shader (ctx : Option GpuContext) (shader : Nat) (gl : GLState) :
    Option GpuContext × GLState :=
  match ctx with
  | none => (none, gl)
  | some c =>
    if c.backend_type = GpuBackendType.GPU_BACKEND_OPENGLES then
      (some { c with current_program := shader },
       { gl with bound_program := shader,
                 calls := gl.calls ++ [GLCall.glUseProgram shader] })
    else (some c, gl)

/-- gpu_context_delete_shader of gpucontext.c: glDeleteProgram. -/
def gpu_context_delete_shader (ctx : Option GpuContext) (shader : Nat) (gl : GLState) : GLState :=
  match ctx with
  | none => gl
  | some c =>
    if c.backend_type = GpuBackendType.GPU_BACKEND_OPENGLES then
      { gl with live_programs := gl.live_programs.erase shader,
                calls := gl.calls ++ [GLCall.glDeleteProgram shader] }
    else gl

/-- gpu_context_set_uniform_float of gpucontext.c: resolves the location by
name against ctx->current_program; uploads only when the location is >= 0. -/
def gpu_context_set_uniform_float (env : GLEnv) (ctx : Option GpuContext)
    (name : Option String) (value : Rat) (gl : GLState) : GLState :=
  match ctx, name with
  | some c, some n =>
    if c.backend_type = GpuBackendType.GPU_BACKEND_OPENGLES then
      let location := env.uniform_loc c.current_program n
      if 0 ≤ location then
        { gl with calls := gl.calls ++ [GLCall.glUniform1f location value] }
      else gl
    else gl
  | _, _ => gl

/-- gpu_context_set_uniform_vec2 of gpucontext.c. -/
def gpu_context_set_uniform_vec2 (env : GLEnv) (ctx : Option GpuContext)
    (name : Option String) (x y : Rat) (gl : GLState) : GLState :=
  match ctx, name with
  | some c, some n =>
    if c.backend_type = GpuBackendType.GPU_BACKEND_OPENGLES then
      let location := env.uniform_loc c.current_program n
      if 0 ≤ location then
        { gl with calls := gl.calls ++ [GLCall.glUniform2f location x y] }
      else gl
    else gl
  | _, _ => gl

/-- gpu_context_set_uniform_vec3 of gpucontext.c. -/
def gpu_context_set_uniform_vec3 (env : GLEnv) (ctx : Option GpuContext)
    (name : Option String) (x y z : Rat) (gl : GLState) : GLState :=
  match ctx, name with
  | some c, some n =>
    if c.backend_type = GpuBackendType.GPU_BACKEND_OPENGLES then
      let location := env.uniform_loc c.current_program n
      if 0 ≤ location then
        { gl with calls := gl.calls ++ [GLCall.glUniform3f location x y z] }
      else gl
    else gl
  | _, _ => gl

/-- gpu_context_set_uniform_vec4 of gpucontext.c. -/
def gpu_context_set_uniform_vec4 (env : GLEnv) (ctx : Option GpuContext)
    (name : Option String) (x y z w : Rat) (gl : GLState) : GLState :=
  match ctx, name with
  | some c, some n =>
    if c.backend_type = GpuBackendType.GPU_BACKEND_OPENGLES then
      let location := env.uniform_loc c.current_program n
      if 0 ≤ location then
        { gl with calls := gl.calls ++ [GLCall.glUniform4f location x y z w] }
      else gl
    else gl
  | _, _ => gl

/-- gpu_context_set_uniform_mat4 of gpucontext.c (matrix pointer is also
null-guarded). -/
def gpu_context_set_uniform_mat4 (env : GLEnv) (ctx : Option GpuContext)
    (name : Option String) (matrix : Option (List Rat)) (gl : GLState) : GLState :=
  match ctx, name, matrix with
  | some c, some n, some m =>
    if c.backend_type = GpuBackendType.GPU_BACKEND_OPENGLES then
      let location := env.uniform_loc c.current_program n
      if 0 ≤ location then
        { gl with calls := gl.calls ++ [GLCall.glUniformMatrix4fv location m] }
      else gl
    else gl
  | _, _, _ => gl

/-- gpu_context_create_buffer of gpucontext.c: null ctx or null data gives
handle 0; on OPENGLES, glGenBuffers + glBindBuffer + glBufferData. -/
def gpu_context_create_buffer (ctx : Option GpuContext) (data : Option (List Rat))
    (size : Nat) (gl : GLState) : GLState × Nat :=
  match ctx, data with
  | some c, some d =>
    if c.backend_type = GpuBackendType.GPU_BACKEND_OPENGLES then
      let b := gl.next_id
      ({ gl with next_id := gl.next_id + 1,
                 live_buffers := gl.live_buffers ++ [b],
                 bound_array_buffer := b,
                 calls := gl.calls ++ [GLCall.glBindBuffer b, GLCall.glBufferData size d] }, b)
    else (gl, 0)
  | _, _ => (gl, 0)

/-- gpu_context_bind_buffer of gpucontext.c. -/
def gpu_context_bind_buffer (ctx : Option GpuContext) (buffer : Nat) (gl : GLState) : GLState :=
  match ctx with
  | none => gl
  | some c =>
    if c.backend_type = GpuBackendType.GPU_BACKEND_OPENGLES then
      { gl with bound_array_buffer := buffer,
                calls := gl.calls ++ [GLCall.glBindBuffer buffer] }
    else gl

/-- gpu_context_delete_buffer of gpucontext.c. -/
def gpu_context_delete_buffer (ctx : Option GpuContext) (buffer : Nat) (gl : GLState) : GLState :=
  match ctx with
  | none => gl
  | some c =>
    if c.backend_type = GpuBackendType.GPU_BACKEND_OPENGLES then
      { gl with live_buffers := gl.live_buffers.erase buffer,
                calls := gl.calls ++ [GLCall.glDeleteBuffers buffer] }
    else gl

/-- gpu_context_create_texture of gpucontext.c: only the context is
null-guarded (pixel data may be absent); on OPENGLES, glGenTextures +
glBindTexture + glTexImage2D + linear min/mag filters. -/
def gpu_context_create_texture (ctx : Option GpuContext) (w h : Nat)
    (data : Option (List Nat)) (gl : GLState) : GLState × Nat :=
  match ctx with
  | none => (gl, 0)
  | some c =>
    if c.backend_type = GpuBackendType.GPU_BACKEND_OPENGLES then
      let t := gl.next_id
      ({ gl with next_id := gl.next_id + 1,
                 live_textures := gl.live_textures ++ [t],
                 bound_texture_2d := t,
                 calls := gl.calls ++ [GLCall.glBindTexture t, GLCall.glTexImage2D w h data,
                                       GLCall.glTexParameterMinLinear,
                                       GLCall.glTexParameterMagLinear] }, t)
    else (gl, 0)

/-- gpu_context_bind_texture of gpucontext.c. -/
def gpu_context_bind_texture (ctx : Option GpuContext) (texture slot : Nat) (gl : GLState) : GLState :=
  match ctx with
  | none => gl
  | some c =>
    if c.backend_type = GpuBackendType.GPU_BACKEND_OPENGLES then
      { gl with active_texture_slot := slot,
                bound_texture_2d := texture,
                calls := gl.calls ++ [GLCall.glActiveTexture slot, GLCall.glBindTexture texture] }
    else gl

/-- gpu_context_delete_texture of gpucontext.c. -/
def gpu_context_delete_texture (ctx : Option GpuContext) (texture : Nat) (gl : GLState) : GLState :=
  match ctx with
  | none => gl
  | some c =>
    if c.backend_type = GpuBackendType.GPU_BACKEND_OPENGLES then
      { gl with live_textures := gl.live_textures.erase texture,
                calls := gl.calls ++ [GLCall.glDeleteTextures texture] }
    else gl

/-- gpu_blur_pass of passes.c: null-guarded; the separable blur itself is an
unimplemented TODO in the source, so the function issues no GLState call and
leaves all state untouched. -/
def gpu_blur_pass (ctx : Option GpuContext) (x y : Int) (w h : Nat)
    (radius : Rat) (samples : Int) (gl : GLState) : GLState :=
  match ctx with
  | none => gl
  | some _ => gl

/-- gpu_shadow_pass of passes.c: ctx and color pointers are null-guarded;
the shadow rendering itself is an unimplemented TODO in the source. -/
def gpu_shadow_pass (ctx : Option GpuContext) (x y : Int) (w h : Nat)
    (offset_x offset_y : Rat) (color : Option (Rat × Rat × Rat × Rat))
    (blur opacity : Rat) (gl : GLState) : GLState :=
  match ctx, color with
  | some _, some _ => gl
  | _, _ => gl

/-- gpu_composite_pass of passes.c: null-guarded (the backend kind is not
checked); glEnable(GL_BLEND), then a switch on blend_mode selecting the
glBlendFunc pair; the switch has no default case, so any other mode value
leaves the blend function as it was. -/
def gpu_composite_pass (ctx : Option GpuContext) (blend_mode : Int) (gl : GLState) : GLState :=
  match ctx with
  | none => gl
  | some _ =>
    let gl1 := { gl with blend_enabled := true,
                         calls := gl.calls ++ [GLCall.glEnableBlend] }
    if blend_mode = 0 then
      { gl1 with blend_src := BlendFactor.GL_SRC_ALPHA,
                 blend_dst := BlendFactor.GL_ONE_MINUS_SRC_ALPHA,
                 calls := gl1.calls ++ [GLCall.glBlendFunc BlendFactor.GL_SRC_ALPHA BlendFactor.GL_ONE_MINUS_SRC_ALPHA] }
    else if blend_mode = 1 then
      { gl1 with blend_src := BlendFactor.GL_DST_COLOR,
                 blend_dst := BlendFactor.GL_ZERO,
                 calls := gl1.calls ++ [GLCall.glBlendFunc BlendFactor.GL_DST_COLOR BlendFactor.GL_ZERO] }
    else if blend_mode = 2 then
      { gl1 with blend_src := BlendFactor.GL_ONE,
                 blend_dst := BlendFactor.GL_ONE_MINUS_SRC_COLOR,
                 calls := gl1.calls ++ [GLCall.glBlendFunc BlendFactor.GL_ONE BlendFactor.GL_ONE_MINUS_SRC_COLOR] }
    else if blend_mode = 3 then
      { gl1 with blend_src := BlendFactor.GL_SRC_ALPHA,
                 blend_dst := BlendFactor.GL_ONE,
                 calls := gl1.calls ++ [GLCall.glBlendFunc BlendFactor.GL_SRC_ALPHA BlendFactor.GL_ONE] }
    else gl1

/-- gpu_color_adjust_pass of passes.c: null-guarded; the color adjustment
itself is an unimplemented TODO in the source. -/
def gpu_color_adjust_pass (ctx : Option GpuContext) (x y : Int) (w h : Nat)
    (brightness contrast saturation : Rat) (gl : GLState) : GLState :=
  match ctx with
  | none => gl
  | some _ => gl

/-- The C cast (int32_t)f of a float value, modelled on Rat: truncation
toward zero (overflow of the 32-bit range is undefined in C and outside
the scope of this model). -/
def c_cast_i32 (q : Rat) : Int :=
  Int.tdiv q.num (Int.ofNat q.den)

/-- Read params[i]. Past the end of the array this is undefined behaviour
in C; the model returns 0 there and the interpreter flags the overrun. -/
def pread (params : List Rat) (i : Nat) : Rat :=
  params.getD i 0

/-- Dispatch instructions issued by gpu_execute_render_graph, recorded at
the call sites in the switch of passes.c (the x, y, width, height arguments
the interpreter passes to the effect passes are the literal zeros of the
source). -/
inductive PassCall where
  | clear (r g b a : Rat)
  | blur (x y : Int) (w h : Nat) (radius : Rat) (samples : Int)
  | shadow (x y : Int) (w h : Nat) (offset_x offset_y : Rat)
      (color : Rat × Rat × Rat × Rat) (blurRadius opacity : Rat)
  | composite (mode : Int)
  | colorAdjust (x y : Int) (w h : Nat) (brightness contrast saturation : Rat)
  deriving DecidableEq, Repr

/-- Result of running (part of) a render graph: the GLState state after the
dispatched calls, the dispatches themselves in order, the final parameter
cursor, and whether any parameter read went past the end of the array. -/
structure ExecOut where
  gl : GLState
  dispatched : List PassCall
  cursor : Nat
  oob : Bool
  deriving DecidableEq, Repr

/-- One iteration of the switch of gpu_execute_render_graph (passes.c,
lines 130-171): dispatch on the node type tag, read the parameters the
source reads at the current cursor, call the embedded pass, and advance
the cursor by the inline increment of that case. A DrawRect node (tag 1)
only advances the cursor (the draw is a TODO in the source) and an
unrecognized tag falls through the switch doing nothing at all. -/
def execNode (c : GpuContext) (t : Int) (params : List Rat) (off : Nat) (gl : GLState) : ExecOut :=
  if t = 0 then
    { gl := gpu_context_clear (some c) (pread params off) (pread params (off + 1))
              (pread params (off + 2)) (pread params (off + 3)) gl,
      dispatched := [PassCall.clear (pread params off) (pread params (off + 1))
              (pread params (off + 2)) (pread params (off + 3))],
      cursor := off + 4,
      oob := decide (params.length < off + 4) }
  else if t = 1 then
    { gl := gl, dispatched := [], cursor := off + 8, oob := false }
  else if t = 2 then
    { gl := gpu_blur_pass (some c) 0 0 0 0 (pread params off)
              (c_cast_i32 (pread params (off + 1))) gl,
      dispatched := [PassCall.blur 0 0 0 0 (pread params off)
              (c_cast_i32 (pread params (off + 1)))],
      cursor := off + 2,
      oob := decide (params.length < off + 2) }
  else if t = 3 then
    { gl := gpu_shadow_pass (some c) 0 0 0 0 (pread params off) (pread params (off + 1))
              (some (pread params (off + 2), pread params (off + 3),
                     pread params (off + 4), pread params (off + 5)))
              (pread params (off + 6)) (pread params (off + 7)) gl,
      dispatched := [PassCall.shadow 0 0 0 0 (pread params off) (pread params (off + 1))
              (pread params (off + 2), pread params (off + 3),
               pread params (off + 4), pread params (off + 5))
              (pread params (off + 6)) (pread params (off + 7))],
      cursor := off + 8,
      oob := decide (params.length < off + 8) }
  else if t = 4 then
    { gl := gpu_composite_pass (some c) (c_cast_i32 (pread params off)) gl,
      dispatched := [PassCall.composite (c_cast_i32 (pread params off))],
      cursor := off + 1,
      oob := decide (params.length < off + 1) }
  else if t = 5 then
    { gl := gpu_color_adjust_pass (some c) 0 0 0 0 (pread params off)
              (pread params (off + 1)) (pread params (off + 2)) gl,
      dispatched := [PassCall.colorAdjust 0 0 0 0 (pread params off)
              (pread params (off + 1)) (pread params (off + 2))],
      cursor := off + 3,
      oob := decide (params.length < off + 3) }
  else
    { gl := gl, dispatched := [], cursor := off, oob := false }

/-- The node loop of gpu_execute_render_graph, in node order. -/
def runNodes (c : GpuContext) (nodes : List Int) (params : List Rat) (off : Nat) (gl : GLState) :
    ExecOut :=
  match nodes with
  | [] => { gl := gl, dispatched := [], cursor := off, oob := false }
  | t :: rest =>
    let r1 := execNode c t params off gl
    let r2 := runNodes c rest params r1.cursor r1.gl
    { gl := r2.gl, dispatched := r1.dispatched ++ r2.dispatched,
      cursor := r2.cursor, oob := r1.oob || r2.oob }

/-- gpu_execute_render_graph of passes.c: null checks on ctx, nodes and
params, then the node loop starting at parameter offset 0. The function
receives no length for the parameter array and performs no arity check. -/
def gpu_execute_render_graph (ctx : Option GpuContext) (nodes : Option (List Int))
    (params : Option (List Rat)) (gl : GLState) : ExecOut :=
  match ctx, nodes, params with
  | some c, some ns, some ps => runNodes c ns ps 0 gl
  | _, _, _ => { gl := gl, dispatched := [], cursor := 0, oob := false }

/-- Outcomes of the EGL steps of try_init_opengles, in the order the C
code performs them: eglGetDisplay, eglInitialize, eglChooseConfig,
eglCreatePbufferSurface, eglCreateContext, eglMakeCurrent; plus the
glGetString results copied into the context on success (NULL results are
skipped by the strncpy guards). -/
structure EGLEnv where
  display_ok : Bool
  init_ok : Bool
  choose_config_ok : Bool
  surface_ok : Bool
  context_ok : Bool
  make_current_ok : Bool
  gl_vendor : Option String
  gl_renderer : Option String
  gl_version : Option String

/-- EGL resources held by the process: whether the display is in the
initialized state (eglInitialize without a matching eglTerminate), and
the number of live pbuffer surfaces and EGL contexts. -/
structure EGLState where
  display_live : Bool
  surfaces : Nat
  contexts : Nat
  deriving DecidableEq, Repr

/-- try_init_vulkan of gpucontext.c: a TODO stub that always fails. -/
def try_init_vulkan (ctx : GpuContext) : Bool × GpuContext :=
  (false, ctx)

/-- try_init_opengl of gpucontext.c, defined(__FreeBSD__) branch: it
writes placeholder identity strings and sets the backend field to
GPU_BACKEND_OPENGL, but returns false because no real context can be
created without a window. It allocates no backend resources. -/
def try_init_opengl (ctx : GpuContext) : Bool × GpuContext :=
  (false, { ctx with vendor_name := "System",
                     device_name := "OpenGL (not initialized)",
                     driver_version := "N/A",
                     backend_type := GpuBackendType.GPU_BACKEND_OPENGL })

/-- try_init_opengles of gpucontext.c (USE_EGL branch): the EGL step
sequence with the exact cleanup the source performs on each failure path
(eglTerminate after a failed eglChooseConfig or eglCreatePbufferSurface;
destroy surface + terminate after a failed eglCreateContext; destroy
context + surface + terminate after a failed eglMakeCurrent). On success
it copies the non-NULL glGetString results and sets the backend kind. -/
def try_init_opengles (env : EGLEnv) (ctx : GpuContext) (st : EGLState) :
    Bool × GpuContext × EGLState :=
  if !env.display_ok then (false, ctx, st)
  else if !env.init_ok then (false, ctx, st)
  else
    let st1 := { st with display_live := true }
    if !env.choose_config_ok then
      (false, ctx, { st1 with display_live := false })
    else if !env.surface_ok then
      (false, ctx, { st1 with display_live := false })
    else
      let st2 := { st1 with surfaces := st1.surfaces + 1 }
      if !env.context_ok then
        (false, ctx, { st2 with surfaces := st2.surfaces - 1, display_live := false })
      else
        let st3 := { st2 with contexts := st2.contexts + 1 }
        if !env.make_current_ok then
          (false, ctx, { st3 with contexts := st3.contexts - 1,
                                  surfaces := st3.surfaces - 1,
                                  display_live := false })
        else
          let ctx1 := { ctx with
            vendor_name := env.gl_vendor.getD ctx.vendor_name,
            device_name := env.gl_renderer.getD ctx.device_name,
            driver_version := env.gl_version.getD ctx.driver_version,
            backend_type := GpuBackendType.GPU_BACKEND_OPENGLES }
          (true, ctx1, st3)

/-- Environment of gpu_context_create: whether calloc succeeds, and the
EGL probe outcomes. -/
structure CreateEnv where
  calloc_ok : Bool
  egl : EGLEnv

/-- Backends in the order gpu_context_create probes them. -/
inductive BackendAttempt where
  | vulkan
  | opengl
  | opengles
  deriving DecidableEq, Repr

/-- Result of gpu_context_create: the returned context pointer (none is
NULL), the EGL resource state afterwards, and the probes attempted in
order. -/
structure CreateOut where
  ctx : Option GpuContext
  egl : EGLState
  attempts : List BackendAttempt
  deriving Repr

/-- gpu_context_create of gpucontext.c: calloc a zeroed context, record
the dimensions, then try Vulkan, desktop OpenGL and OpenGL ES in that
order, returning at the first success; if none succeeds the context is
freed and NULL returned. -/
def gpu_context_create (env : CreateEnv) (w h : Nat) (st : EGLState) : CreateOut :=
  if !env.calloc_ok then { ctx := none, egl := st, attempts := [] }
  else
    let ctx0 : GpuContext :=
      { backend_type := GpuBackendType.GPU_BACKEND_NONE, width := w, height := h,
        current_program := 0, device_name := "", vendor_name := "", driver_version := "" }
    let r1 := try_init_vulkan ctx0
    if r1.1 then { ctx := some r1.2, egl := st, attempts := [BackendAttempt.vulkan] }
    else
      let r2 := try_init_opengl r1.2
      if r2.1 then
        { ctx := some r2.2, egl := st, attempts := [BackendAttempt.vulkan, BackendAttempt.opengl] }
      else
        let r3 := try_init_opengles env.egl r2.2 st
        if r3.1 then
          { ctx := some r3.2.1, egl := r3.2.2,
            attempts := [BackendAttempt.vulkan, BackendAttempt.opengl, BackendAttempt.opengles] }
        else
          { ctx := none, egl := r3.2.2,
            attempts := [BackendAttempt.vulkan, BackendAttempt.opengl, BackendAttempt.opengles] }

/-- All six EGL steps of try_init_opengles succeed. -/
def eglAllOk (e : EGLEnv) : Bool :=
  e.display_ok && e.init_ok && e.choose_config_ok
    && e.surface_ok && e.context_ok && e.make_current_ok

/-- Node arities as the specification states them:
Clear=4, DrawRect=8, BlurPass=2, ShadowPass=8, CompositePass=1,
ColorAdjust=3 (0 for a tag that names no node type). -/
def claimNodeArity (t : Int) : Nat :=
  if t = 0 then 4
  else if t = 1 then 8
  else if t = 2 then 2
  else if t = 3 then 8
  else if t = 4 then 1
  else if t = 5 then 3
  else 0

/-- Total arity of a node list, the quantity the specification requires
to equal the parameter sequence length. -/
def claimTotalArity (nodes : List Int) : Nat :=
  (nodes.map claimNodeArity).sum

/-- The node type tags the interpreter's switch recognizes. -/
def recognizedNodeTypes : List Int :=
  [0, 1, 2, 3, 4, 5]

/-- Specification-side dispatch table for a recognized node at cursor
`off`: which pass or immediate call the node is expected to issue, with
its parameters taken at the cursor. DrawRect (tag 1) issues no call in
the source (TODO body), which is the content of the amendment to C3. -/
def claimNodeDispatch (params : List Rat) (off : Nat) (t : Int) : List PassCall :=
  if t = 0 then
    [PassCall.clear (pread params off) (pread params (off + 1))
      (pread params (off + 2)) (pread params (off + 3))]
  else if t = 1 then []
  else if t = 2 then
    [PassCall.blur 0 0 0 0 (pread params off) (c_cast_i32 (pread params (off + 1)))]
  else if t = 3 then
    [PassCall.shadow 0 0 0 0 (pread params off) (pread params (off + 1))
      (pread params (off + 2), pread params (off + 3),
       pread params (off + 4), pread params (off + 5))
      (pread params (off + 6)) (pread params (off + 7))]
  else if t = 4 then
    [PassCall.composite (c_cast_i32 (pread params off))]
  else if t = 5 then
    [PassCall.colorAdjust 0 0 0 0 (pread params off)
      (pread params (off + 1)) (pread params (off + 2))]
  else []

/-- The blend-function configuration of the GL state. -/
def blendOf (gl : GLState) : BlendFactor × BlendFactor :=
  (gl.blend_src, gl.blend_dst)

/-- A concrete valid context on the OpenGL ES backend, as
gpu_context_create produces on a successful EGL probe. -/
def ctxGLES : GpuContext :=
  { backend_type := GpuBackendType.GPU_BACKEND_OPENGLES, width := 640, height := 480,
    current_program := 0, device_name := "softpipe", vendor_name := "Mesa",
    driver_version := "OpenGL ES 3.0" }

/-- A concrete non-null context whose backend is NONE, hence invalid. -/
def ctxNone : GpuContext :=
  { backend_type := GpuBackendType.GPU_BACKEND_NONE, width := 0, height := 0,
    current_program := 0, device_name := "", vendor_name := "", driver_version := "" }

/-- A concrete GL state with no live objects and an empty call log. -/
def glInit : GLState :=
  { blend_enabled := false, blend_src := BlendFactor.GL_ONE, blend_dst := BlendFactor.GL_ZERO,
    clear_color := (0, 0, 0, 0), viewport_rect := (0, 0, 0, 0), bound_program := 0,
    bound_array_buffer := 0, active_texture_slot := 0, bound_texture_2d := 0,
    next_id := 1, live_shaders := [], live_programs := [], live_buffers := [],
    live_textures := [], calls := [] }

/-- A concrete EGL state holding no resources. -/
def eglInit : EGLState :=
  { display_live := false, surfaces := 0, contexts := 0 }

lemma not_mem_of_all_lt {l : List Nat} {bnd : Nat} (h : l.all (fun x => x < bnd) = true)
    {n : Nat} (hn : bnd ≤ n) : n ∉ l := by
  intro hm
  have hx := List.all_eq_true.mp h n hm
  simp only [decide_eq_true_eq] at hx
  omega

lemma erase_one_fresh {l : List Nat} {n : Nat} (hn : n ∉ l) : (l ++ [n]).erase n = l := by
  rw [List.erase_append_right _ hn]
  simp

lemma erase_two_fresh {l : List Nat} {a b : Nat} (ha : a ∉ l) (hb : b ∉ l) :
    ((l ++ [a, b]).erase a).erase b = l := by
  rw [List.erase_append_right _ ha]
  simp only [List.erase_cons_head]
  rw [List.erase_append_right _ hb]
  simp

/-- C1: the specification requires a graph whose total node arity differs
from the parameter sequence length to be rejected wholesale before any
execution, with zero passes executed. gpu_execute_render_graph receives no
length for its parameter array and performs no such check: on the graph
[Clear] with an empty parameter sequence (total arity 4, length 0) it
still dispatches the clear pass, issuing glClearColor/glClear on the
backend from out-of-bounds parameter reads. This exhibits the divergence
of the code from the claim. -/
theorem C1_arity_mismatch_graph_still_executes :
    claimTotalArity [0] = 4 ∧ (([] : List Rat)).length = 0 ∧
    (gpu_execute_render_graph (some ctxGLES) (some [0]) (some ([] : List Rat)) glInit).dispatched
      = [PassCall.clear 0 0 0 0] ∧
    (gpu_execute_render_graph (some ctxGLES) (some [0]) (some ([] : List Rat)) glInit).gl.calls
      = [GLCall.glClearColor 0 0 0 0, GLCall.glClearBuffers] ∧
    (gpu_execute_render_graph (some ctxGLES) (some [0]) (some ([] : List Rat)) glInit).oob
      = true := by
  refine ⟨by decide, rfl, by decide, by decide, by decide⟩

/-- C2 counterexample: on a concrete valid OpenGL ES context,
gpu_blur_pass with radius 4 and 8 samples returns the GL state unchanged
and, starting from an empty call log, issues no backend call at all — in
particular no horizontal and no vertical convolution pass — refuting the
claim that the blur pass performs a separable two-pass blur. -/
theorem C2_blur_pass_issues_no_backend_calls :
    gpu_blur_pass (some ctxGLES) 0 0 0 0 4 8 glInit = glInit ∧
    (gpu_blur_pass (some ctxGLES) 0 0 0 0 4 8 glInit).calls = [] := by
  exact ⟨rfl, rfl⟩

/-- C2 amended: a BlurPass node consumes exactly 2 parameters (radius,
then sampleCount cast to int32) at the cursor and dispatches to
gpu_blur_pass with the region arguments zeroed, and gpu_blur_pass is an
unimplemented hook that performs no operation on any input, so the node
leaves the GL state unchanged. -/
theorem C2_blur_node_consumes_two_params_and_is_stub :
    (∀ ctx x y w h radius samples gl, gpu_blur_pass ctx x y w h radius samples gl = gl) ∧
    (∀ c params off gl,
      (execNode c 2 params off gl).cursor = off + 2 ∧
      (execNode c 2 params off gl).dispatched
        = [PassCall.blur 0 0 0 0 (pread params off) (c_cast_i32 (pread params (off + 1)))] ∧
      (execNode c 2 params off gl).gl = gl) := by
  constructor
  · intro ctx x y w h radius samples gl
    cases ctx <;> rfl
  · intro c params off gl
    refine ⟨by simp [execNode], by simp [execNode], by simp [execNode, gpu_blur_pass]⟩

/-- C9: a node whose type tag is outside {0,1,2,3,4,5} falls through the
interpreter's switch: no pass or draw call is dispatched, the GL state
and the parameter cursor are untouched, no error is signalled, and the
walk continues with the remaining nodes as if the node were absent. -/
theorem C9_unrecognized_node_skipped (c : GpuContext) (t : Int) (rest : List Int)
    (params : List Rat) (off : Nat) (gl : GLState)
    (ht : t ∉ recognizedNodeTypes) :
    execNode c t params off gl = { gl := gl, dispatched := [], cursor := off, oob := false } ∧
    runNodes c (t :: rest) params off gl = runNodes c rest params off gl := by
  simp only [recognizedNodeTypes, List.mem_cons, List.mem_singleton, not_or] at ht
  obtain ⟨h0, h1, h2, h3, h4, h5⟩ := ht
  have he : execNode c t params off gl
      = { gl := gl, dispatched := [], cursor := off, oob := false } := by
    simp [execNode, h0, h1, h2, h3, h4, h5]
  refine ⟨he, ?_⟩
  simp [runNodes, he]

/-- C9 witness: the unrecognized tag 7 in front of a recognized Clear node
is skipped without consuming parameters. -/
theorem C9_unrecognized_node_skipped_witness :
    (7 : Int) ∉ recognizedNodeTypes ∧
    (execNode ctxGLES 7 [1, 1, 1, 1] 0 glInit
        = { gl := glInit, dispatched := [], cursor := 0, oob := false } ∧
      runNodes ctxGLES [7, 0] [1, 1, 1, 1] 0 glInit
        = runNodes ctxGLES [0] [1, 1, 1, 1] 0 glInit) :=
  ⟨by decide, C9_unrecognized_node_skipped ctxGLES 7 [0] [1, 1, 1, 1] 0 glInit (by decide)⟩

/-- C6: gpu_composite_pass on a non-null context maps blend mode 0 to
(GL_SRC_ALPHA, GL_ONE_MINUS_SRC_ALPHA) (Normal source-over), 1 to
(GL_DST_COLOR, GL_ZERO) (Multiply), 2 to (GL_ONE, GL_ONE_MINUS_SRC_COLOR)
(Screen) and 3 to (GL_SRC_ALPHA, GL_ONE) (Overlay); calling it twice with
the same mode yields the same blend-function configuration as calling it
once; and a mode outside {0,1,2,3} leaves the previously configured blend
function unchanged (no error, no reset to a default). -/
theorem C6_composite_blend_mode_selection (c : GpuContext) :
    (∀ gl, blendOf (gpu_composite_pass (some c) 0 gl)
        = (BlendFactor.GL_SRC_ALPHA, BlendFactor.GL_ONE_MINUS_SRC_ALPHA)) ∧
    (∀ gl, blendOf (gpu_composite_pass (some c) 1 gl)
        = (BlendFactor.GL_DST_COLOR, BlendFactor.GL_ZERO)) ∧
    (∀ gl, blendOf (gpu_composite_pass (some c) 2 gl)
        = (BlendFactor.GL_ONE, BlendFactor.GL_ONE_MINUS_SRC_COLOR)) ∧
    (∀ gl, blendOf (gpu_composite_pass (some c) 3 gl)
        = (BlendFactor.GL_SRC_ALPHA, BlendFactor.GL_ONE)) ∧
    (∀ mode gl,
      blendOf (gpu_composite_pass (some c) mode (gpu_composite_pass (some c) mode gl))
        = blendOf (gpu_composite_pass (some c) mode gl)) ∧
    (∀ mode gl, mode ∉ ([0, 1, 2, 3] : List Int) →
      blendOf (gpu_composite_pass (some c) mode gl) = blendOf gl) := by
  refine ⟨fun gl => rfl, fun gl => rfl, fun gl => rfl, fun gl => rfl, ?_, ?_⟩
  · intro mode gl
    simp only [gpu_composite_pass]
    split_ifs <;> simp [blendOf]
  · intro mode gl hm
    simp only [List.mem_cons, List.mem_singleton, not_or] at hm
    obtain ⟨h0, h1, h2, h3⟩ := hm
    simp [gpu_composite_pass, blendOf, h0, h1, h2, h3]

/-- C6 witness: on a concrete context, mode 0 selects source-over and the
out-of-range mode 7 leaves the default blend function untouched. -/
theorem C6_composite_blend_mode_selection_witness :
    blendOf (gpu_composite_pass (some ctxGLES) 0 glInit)
      = (BlendFactor.GL_SRC_ALPHA, BlendFactor.GL_ONE_MINUS_SRC_ALPHA) ∧
    blendOf (gpu_composite_pass (some ctxGLES) 7 glInit) = blendOf glInit :=
  ⟨(C6_composite_blend_mode_selection ctxGLES).1 glInit,
   (C6_composite_blend_mode_selection ctxGLES).2.2.2.2.2 7 glInit (by decide)⟩

/-- C3 counterexample: DrawRect (tag 1) is a recognized node type, yet on
a concrete valid context with its full 8 parameters present the
interpreter dispatches no pass or draw call for it (the draw is a TODO in
the source) — it only advances the cursor by 8 — refuting the claim that
every recognized node dispatches to a corresponding pass or
immediate-draw call. -/
theorem C3_drawrect_dispatches_no_call :
    (1 : Int) ∈ recognizedNodeTypes ∧
    (execNode ctxGLES 1 [1, 2, 3, 4, 5, 6, 7, 8] 0 glInit).dispatched = [] ∧
    (execNode ctxGLES 1 [1, 2, 3, 4, 5, 6, 7, 8] 0 glInit).gl = glInit ∧
    (execNode ctxGLES 1 [1, 2, 3, 4, 5, 6, 7, 8] 0 glInit).cursor = 8 := by
  refine ⟨by decide, by decide, by decide, by decide⟩

/-- C3 amended: each recognized node consumes exactly its type's fixed
arity of parameters starting at the current cursor (Clear=4, DrawRect=8,
BlurPass=2, ShadowPass=8, CompositePass=1, ColorAdjust=3) and advances
the cursor by exactly that arity, in node order; Clear, BlurPass,
ShadowPass, CompositePass and ColorAdjust dispatch to the corresponding
pass or immediate call with the parameters at the cursor, while DrawRect
dispatches no call (its body is an unimplemented TODO) and only advances
the cursor. -/
theorem C3_recognized_node_arity_and_dispatch (c : GpuContext) (t : Int) (rest : List Int)
    (params : List Rat) (off : Nat) (gl : GLState)
    (ht : t ∈ recognizedNodeTypes) :
    (execNode c t params off gl).cursor = off + claimNodeArity t ∧
    (execNode c t params off gl).dispatched = claimNodeDispatch params off t ∧
    runNodes c (t :: rest) params off gl =
      { gl := (runNodes c rest params (execNode c t params off gl).cursor
                (execNode c t params off gl).gl).gl,
        dispatched := (execNode c t params off gl).dispatched
          ++ (runNodes c rest params (execNode c t params off gl).cursor
                (execNode c t params off gl).gl).dispatched,
        cursor := (runNodes c rest params (execNode c t params off gl).cursor
                (execNode c t params off gl).gl).cursor,
        oob := (execNode c t params off gl).oob
          || (runNodes c rest params (execNode c t params off gl).cursor
                (execNode c t params off gl).gl).oob } := by
  refine ⟨?_, ?_, rfl⟩ <;>
  · simp only [recognizedNodeTypes, List.mem_cons, List.not_mem_nil, or_false] at ht
    rcases ht with rfl | rfl | rfl | rfl | rfl | rfl <;>
      simp [execNode, claimNodeArity, claimNodeDispatch]

/-- C3 amended, witness: a Clear node at cursor 0 consumes its 4
parameters, dispatches the clear, and the walk continues at cursor 4. -/
theorem C3_recognized_node_arity_and_dispatch_witness :
    (0 : Int) ∈ recognizedNodeTypes ∧
    ((execNode ctxGLES 0 [1, 1, 1, 1] 0 glInit).cursor = 0 + claimNodeArity 0 ∧
      (execNode ctxGLES 0 [1, 1, 1, 1] 0 glInit).dispatched = claimNodeDispatch [1, 1, 1, 1] 0 0 ∧
      runNodes ctxGLES [0] [1, 1, 1, 1] 0 glInit =
        { gl := (runNodes ctxGLES [] [1, 1, 1, 1] (execNode ctxGLES 0 [1, 1, 1, 1] 0 glInit).cursor
                  (execNode ctxGLES 0 [1, 1, 1, 1] 0 glInit).gl).gl,
          dispatched := (execNode ctxGLES 0 [1, 1, 1, 1] 0 glInit).dispatched
            ++ (runNodes ctxGLES [] [1, 1, 1, 1] (execNode ctxGLES 0 [1, 1, 1, 1] 0 glInit).cursor
                  (execNode ctxGLES 0 [1, 1, 1, 1] 0 glInit).gl).dispatched,
          cursor := (runNodes ctxGLES [] [1, 1, 1, 1] (execNode ctxGLES 0 [1, 1, 1, 1] 0 glInit).cursor
                  (execNode ctxGLES 0 [1, 1, 1, 1] 0 glInit).gl).cursor,
          oob := (execNode ctxGLES 0 [1, 1, 1, 1] 0 glInit).oob
            || (runNodes ctxGLES [] [1, 1, 1, 1] (execNode ctxGLES 0 [1, 1, 1, 1] 0 glInit).cursor
                  (execNode ctxGLES 0 [1, 1, 1, 1] 0 glInit).gl).oob }) :=
  ⟨by decide, C3_recognized_node_arity_and_dispatch ctxGLES 0 [] [1, 1, 1, 1] 0 glInit (by decide)⟩

/-- C7: every per-call operation of the Device Context and Resource
Manager (clear, viewport, present, shader create/use/delete, buffer
create/bind/delete, texture create/bind/delete, and the five uniform
uploads) invoked with a null or invalid context is a fail-soft no-op: the
context and GL state are returned unchanged, creation calls return handle
0, and no backend call is issued (the functions are total, so no fault is
raised). -/
theorem C7_invalid_context_ops_noop (ctx : Option GpuContext)
    (hv : gpu_context_is_valid ctx = false) :
    (∀ r g b a gl, gpu_context_clear ctx r g b a gl = gl) ∧
    (∀ x y w h gl, gpu_context_viewport ctx x y w h gl = (ctx, gl)) ∧
    (∀ gl, gpu_context_present ctx gl = gl) ∧
    (∀ env vsrc fsrc gl, gpu_context_create_shader env ctx vsrc fsrc gl = (gl, 0)) ∧
    (∀ s gl, gpu_context_use_shader ctx s gl = (ctx, gl)) ∧
    (∀ s gl, gpu_context_delete_shader ctx s gl = gl) ∧
    (∀ env n v gl, gpu_context_set_uniform_float env ctx n v gl = gl) ∧
    (∀ env n x y gl, gpu_context_set_uniform_vec2 env ctx n x y gl = gl) ∧
    (∀ env n x y z gl, gpu_context_set_uniform_vec3 env ctx n x y z gl = gl) ∧
    (∀ env n x y z w gl, gpu_context_set_uniform_vec4 env ctx n x y z w gl = gl) ∧
    (∀ env n m gl, gpu_context_set_uniform_mat4 env ctx n m gl = gl) ∧
    (∀ data size gl, gpu_context_create_buffer ctx data size gl = (gl, 0)) ∧
    (∀ b gl, gpu_context_bind_buffer ctx b gl = gl) ∧
    (∀ b gl, gpu_context_delete_buffer ctx b gl = gl) ∧
    (∀ w h data gl, gpu_context_create_texture ctx w h data gl = (gl, 0)) ∧
    (∀ t s gl, gpu_context_bind_texture ctx t s gl = gl) ∧
    (∀ t gl, gpu_context_delete_texture ctx t gl = gl) := by
  cases ctx with
  | none =>
    refine ⟨fun r g b a gl => rfl, fun x y w h gl => rfl, fun gl => rfl, ?_,
      fun s gl => rfl, fun s gl => rfl, ?_, ?_, ?_, ?_, ?_, ?_,
      fun b gl => rfl, fun b gl => rfl, fun w h data gl => rfl,
      fun t s gl => rfl, fun t gl => rfl⟩
    · intro env vsrc fsrc gl
      cases vsrc <;> cases fsrc <;> rfl
    · intro env n v gl
      cases n <;> rfl
    · intro env n x y gl
      cases n <;> rfl
    · intro env n x y z gl
      cases n <;> rfl
    · intro env n x y z w gl
      cases n <;> rfl
    · intro env n m gl
      cases n <;> cases m <;> rfl
    · intro data size gl
      cases data <;> rfl
  | some c =>
    have hb : c.backend_type = GpuBackendType.GPU_BACKEND_NONE := by
      simpa [gpu_context_is_valid] using hv
    have hne : ¬ c.backend_type = GpuBackendType.GPU_BACKEND_OPENGLES := by
      simp [hb]
    refine ⟨?_, ?_, ?_, ?_, ?_, ?_, ?_, ?_, ?_, ?_, ?_, ?_, ?_, ?_, ?_, ?_, ?_⟩
    · intro r g b a gl
      simp [gpu_context_clear, hne]
    · intro x y w h gl
      simp [gpu_context_viewport, hne]
    · intro gl
      simp [gpu_context_present, hne]
    · intro env vsrc fsrc gl
      cases vsrc <;> cases fsrc <;> simp [gpu_context_create_shader, hne]
    · intro s gl
      simp [gpu_context_use_shader, hne]
    · intro s gl
      simp [gpu_context_delete_shader, hne]
    · intro env n v gl
      cases n <;> simp [gpu_context_set_uniform_float, hne]
    · intro env n x y gl
      cases n <;> simp [gpu_context_set_uniform_vec2, hne]
    · intro env n x y z gl
      cases n <;> simp [gpu_context_set_uniform_vec3, hne]
    · intro env n x y z w gl
      cases n <;> simp [gpu_context_set_uniform_vec4, hne]
    · intro env n m gl
      cases n <;> cases m <;> simp [gpu_context_set_uniform_mat4, hne]
    · intro data size gl
      cases data <;> simp [gpu_context_create_buffer, hne]
    · intro b gl
      simp [gpu_context_bind_buffer, hne]
    · intro b gl
      simp [gpu_context_delete_buffer, hne]
    · intro w h data gl
      simp [gpu_context_create_texture, hne]
    · intro t s gl
      simp [gpu_context_bind_texture, hne]
    · intro t gl
      simp [gpu_context_delete_texture, hne]

/-- C7 witness: a non-null context whose backend is NONE is invalid, and
clear, present and texture creation on it leave everything unchanged. -/
theorem C7_invalid_context_ops_noop_witness :
    gpu_context_is_valid (some ctxNone) = false ∧
    gpu_context_clear (some ctxNone) 1 0 0 1 glInit = glInit ∧
    gpu_context_present (some ctxNone) glInit = glInit ∧
    gpu_context_create_texture (some ctxNone) 2 2 none glInit = (glInit, 0) :=
  ⟨by decide,
   (C7_invalid_context_ops_noop (some ctxNone) (by decide)).1 1 0 0 1 glInit,
   (C7_invalid_context_ops_noop (some ctxNone) (by decide)).2.2.1 glInit,
   (C7_invalid_context_ops_noop (some ctxNone) (by decide)).2.2.2.2.2.2.2.2.2.2.2.2.2.2.1
     2 2 none glInit⟩

/-- A backend double whose glGetUniformLocation never resolves any name
(always -1); compilation and linking always succeed. -/
def envLocNeg : GLEnv :=
  { vertex_compile_ok := fun _ => true, fragment_compile_ok := fun _ => true,
    link_ok := fun _ _ => true, uniform_loc := fun _ _ => -1 }

/-- A backend double where compilation and linking always succeed and
every uniform name resolves to location 0. -/
def envAllOk : GLEnv :=
  { vertex_compile_ok := fun _ => true, fragment_compile_ok := fun _ => true,
    link_ok := fun _ _ => true, uniform_loc := fun _ _ => 0 }

/-- A backend double where every fragment source fails to compile. -/
def envFragFail : GLEnv :=
  { vertex_compile_ok := fun _ => true, fragment_compile_ok := fun _ => false,
    link_ok := fun _ _ => true, uniform_loc := fun _ _ => -1 }

/-- C8: every uniform upload on a valid OpenGL ES context resolves its
location by name against ctx->current_program — the program recorded by
the most recent gpu_context_use_shader, the upload taking no handle of
its own — and uploads exactly when that location is >= 0, silently doing
nothing (state unchanged, no fault) when the name resolves below 0. The
last conjunct shows the resolution tracks the most recently bound
program: after use_shader(shader), the lookup is against that handle. -/
theorem C8_uniform_location_resolution (env : GLEnv) (c : GpuContext)
    (hb : c.backend_type = GpuBackendType.GPU_BACKEND_OPENGLES) :
    (∀ n v gl, gpu_context_set_uniform_float env (some c) (some n) v gl
        = if 0 ≤ env.uniform_loc c.current_program n then
            { gl with calls := gl.calls
                ++ [GLCall.glUniform1f (env.uniform_loc c.current_program n) v] }
          else gl) ∧
    (∀ n x y gl, gpu_context_set_uniform_vec2 env (some c) (some n) x y gl
        = if 0 ≤ env.uniform_loc c.current_program n then
            { gl with calls := gl.calls
                ++ [GLCall.glUniform2f (env.uniform_loc c.current_program n) x y] }
          else gl) ∧
    (∀ n x y z gl, gpu_context_set_uniform_vec3 env (some c) (some n) x y z gl
        = if 0 ≤ env.uniform_loc c.current_program n then
            { gl with calls := gl.calls
                ++ [GLCall.glUniform3f (env.uniform_loc c.current_program n) x y z] }
          else gl) ∧
    (∀ n x y z w gl, gpu_context_set_uniform_vec4 env (some c) (some n) x y z w gl
        = if 0 ≤ env.uniform_loc c.current_program n then
            { gl with calls := gl.calls
                ++ [GLCall.glUniform4f (env.uniform_loc c.current_program n) x y z w] }
          else gl) ∧
    (∀ n m gl, gpu_context_set_uniform_mat4 env (some c) (some n) (some m) gl
        = if 0 ≤ env.uniform_loc c.current_program n then
            { gl with calls := gl.calls
                ++ [GLCall.glUniformMatrix4fv (env.uniform_loc c.current_program n) m] }
          else gl) ∧
    (∀ shader n v gl,
      gpu_context_set_uniform_float env (gpu_context_use_shader (some c) shader gl).1 (some n) v
          (gpu_context_use_shader (some c) shader gl).2
        = if 0 ≤ env.uniform_loc shader n then
            { (gpu_context_use_shader (some c) shader gl).2 with
              calls := (gpu_context_use_shader (some c) shader gl).2.calls
                ++ [GLCall.glUniform1f (env.uniform_loc shader n) v] }
          else (gpu_context_use_shader (some c) shader gl).2) := by
  refine ⟨?_, ?_, ?_, ?_, ?_, ?_⟩
  · intro n v gl
    simp [gpu_context_set_uniform_float, hb]
  · intro n x y gl
    simp [gpu_context_set_uniform_vec2, hb]
  · intro n x y z gl
    simp [gpu_context_set_uniform_vec3, hb]
  · intro n x y z w gl
    simp [gpu_context_set_uniform_vec4, hb]
  · intro n m gl
    simp [gpu_context_set_uniform_mat4, hb]
  · intro shader n v gl
    simp [gpu_context_use_shader, gpu_context_set_uniform_float, hb]

/-- C8 witness: with a backend double that resolves no uniform name, a
float upload on a concrete valid context is silently ignored. -/
theorem C8_uniform_location_resolution_witness :
    gpu_context_set_uniform_float envLocNeg (some ctxGLES) (some "u") 1 glInit = glInit := by
  have h := (C8_uniform_location_resolution envLocNeg ctxGLES rfl).1 "u" 1 glInit
  simpa [envLocNeg] using h

/-- C5: on a valid OpenGL ES context with a well-formed GL object store,
gpu_context_create_shader leaks no stage object. If the vertex stage
fails to compile the result is handle 0 with the lone created stage
object released; if the fragment stage fails both stage objects are
released before returning 0; if linking fails both stage objects and the
program object are released before returning 0; on success both stage
objects are released after linking and the returned handle is the
nonzero program name, the only object left alive. In every case the
returned GL state is characterized exactly. -/
theorem C5_create_shader_stage_cleanup (env : GLEnv) (c : GpuContext)
    (vsrc fsrc : String) (gl : GLState)
    (hb : c.backend_type = GpuBackendType.GPU_BACKEND_OPENGLES)
    (hwf : gl.wf = true) :
    (env.vertex_compile_ok vsrc = false →
      gpu_context_create_shader env (some c) (some vsrc) (some fsrc) gl
        = ({ gl with next_id := gl.next_id + 1 }, 0)) ∧
    (env.vertex_compile_ok vsrc = true → env.fragment_compile_ok fsrc = false →
      gpu_context_create_shader env (some c) (some vsrc) (some fsrc) gl
        = ({ gl with next_id := gl.next_id + 2 }, 0)) ∧
    (env.vertex_compile_ok vsrc = true → env.fragment_compile_ok fsrc = true →
        env.link_ok vsrc fsrc = false →
      gpu_context_create_shader env (some c) (some vsrc) (some fsrc) gl
        = ({ gl with next_id := gl.next_id + 3 }, 0)) ∧
    (env.vertex_compile_ok vsrc = true → env.fragment_compile_ok fsrc = true →
        env.link_ok vsrc fsrc = true →
      gpu_context_create_shader env (some c) (some vsrc) (some fsrc) gl
          = ({ gl with next_id := gl.next_id + 3,
                       live_programs := gl.live_programs ++ [gl.next_id + 2] },
             gl.next_id + 2)
        ∧ gl.next_id + 2 ≠ 0) := by
  have hws : gl.live_shaders.all (fun x => x < gl.next_id) = true := by
    simp only [GLState.wf, Bool.and_eq_true] at hwf
    exact hwf.1.2
  have hwp : gl.live_programs.all (fun x => x < gl.next_id) = true := by
    simp only [GLState.wf, Bool.and_eq_true] at hwf
    exact hwf.2
  have hs0 : gl.next_id ∉ gl.live_shaders := not_mem_of_all_lt hws (le_refl _)
  have hs1 : gl.next_id + 1 ∉ gl.live_shaders := not_mem_of_all_lt hws (Nat.le_succ _)
  have hp2 : gl.next_id + 2 ∉ gl.live_programs :=
    not_mem_of_all_lt hwp (Nat.le_add_right _ _)
  refine ⟨?_, ?_, ?_, ?_⟩
  · intro h1
    simp [gpu_context_create_shader, hb, h1, erase_one_fresh hs0]
  · intro h1 h2
    simp [gpu_context_create_shader, hb, h1, h2, erase_two_fresh hs0 hs1]
  · intro h1 h2 h3
    simp [gpu_context_create_shader, hb, h1, h2, h3, erase_two_fresh hs0 hs1,
      erase_one_fresh hp2]
  · intro h1 h2 h3
    refine ⟨?_, by omega⟩
    simp [gpu_context_create_shader, hb, h1, h2, h3, erase_two_fresh hs0 hs1]

/-- C5 witness: with a backend double whose fragment compiler always
fails, shader creation on a concrete context returns 0 and releases the
already-compiled vertex stage (only the name counter moved); with the
all-succeeding double it returns the nonzero program name 3. -/
theorem C5_create_shader_stage_cleanup_witness :
    glInit.wf = true ∧
    gpu_context_create_shader envFragFail (some ctxGLES) (some "v") (some "f") glInit
      = ({ glInit with next_id := glInit.next_id + 2 }, 0) ∧
    (gpu_context_create_shader envAllOk (some ctxGLES) (some "v") (some "f") glInit
        = ({ glInit with next_id := glInit.next_id + 3,
                         live_programs := glInit.live_programs ++ [glInit.next_id + 2] },
           glInit.next_id + 2)
      ∧ glInit.next_id + 2 ≠ 0) :=
  ⟨by decide,
   (C5_create_shader_stage_cleanup envFragFail ctxGLES "v" "f" glInit rfl
      (by decide)).2.1 rfl rfl,
   (C5_create_shader_stage_cleanup envAllOk ctxGLES "v" "f" glInit rfl
      (by decide)).2.2.2 rfl rfl rfl⟩

/-- An EGL environment in which every step of the OpenGL ES probe
succeeds and glGetString returns concrete identity strings. -/
def eglEnvAllOk : EGLEnv :=
  { display_ok := true, init_ok := true, choose_config_ok := true, surface_ok := true,
    context_ok := true, make_current_ok := true, gl_vendor := some "Mesa",
    gl_renderer := some "softpipe", gl_version := some "OpenGL ES 3.0" }

/-- A creation environment where calloc succeeds and the EGL probe fully
succeeds. -/
def createEnvAllOk : CreateEnv :=
  { calloc_ok := true, egl := eglEnvAllOk }

/-- C10: gpu_context_create never returns a non-null invalid context:
whenever it returns a context at all, that context's backend kind is
OPENGLES (the only backend whose probe can succeed in this build), so
gpu_context_is_valid holds of every non-null result. On every other path
the partially built context is freed and NULL is returned. -/
theorem C10_create_returns_valid_or_null (env : CreateEnv) (w h : Nat) (st : EGLState)
    (c : GpuContext) (hr : (gpu_context_create env w h st).ctx = some c) :
    gpu_context_is_valid (some c) = true ∧
    c.backend_type = GpuBackendType.GPU_BACKEND_OPENGLES := by
  obtain ⟨cal, egl⟩ := env
  obtain ⟨d, i, cc, su, co, mc, v, r, ver⟩ := egl
  cases cal <;> cases d <;> cases i <;> cases cc <;> cases su <;> cases co <;> cases mc <;>
    simp_all [gpu_context_create, try_init_vulkan, try_init_opengl, try_init_opengles,
      gpu_context_is_valid] <;>
    (subst hr; simp)

/-- C10 witness: a fully successful probe yields the concrete valid
OpenGL ES context. -/
theorem C10_create_returns_valid_or_null_witness :
    gpu_context_is_valid (some ctxGLES) = true ∧
    ctxGLES.backend_type = GpuBackendType.GPU_BACKEND_OPENGLES :=
  C10_create_returns_valid_or_null createEnvAllOk 640 480 eglInit ctxGLES (by decide)

/-- C4: with a successful allocation and a fresh EGL display,
gpu_context_create probes the backends in the fixed order Vulkan, desktop
OpenGL, OpenGL ES (the first two probes are hard-coded failures in this
build, so all three are attempted and the first — and only — possible
success is the ES probe, which is then bound to the returned context with
the query strings cached, falling back to the placeholders written by the
failed OpenGL probe when glGetString returns NULL); if the ES probe fails
too, creation returns NULL and the EGL resource state is exactly as
before the call — each failure path of try_init_opengles releases
everything it had acquired, so no partial resources survive a failed
probe. -/
theorem C4_backend_priority_and_cleanup (env : CreateEnv) (w h : Nat) (st : EGLState)
    (hc : env.calloc_ok = true) (hd : st.display_live = false) :
    (gpu_context_create env w h st).attempts
      = [BackendAttempt.vulkan, BackendAttempt.opengl, BackendAttempt.opengles] ∧
    (eglAllOk env.egl = true →
      (gpu_context_create env w h st).ctx
        = some { backend_type := GpuBackendType.GPU_BACKEND_OPENGLES,
                 width := w, height := h, current_program := 0,
                 device_name := (env.egl.gl_renderer).getD "OpenGL (not initialized)",
                 vendor_name := (env.egl.gl_vendor).getD "System",
                 driver_version := (env.egl.gl_version).getD "N/A" }) ∧
    (eglAllOk env.egl = false →
      (gpu_context_create env w h st).ctx = none ∧
      (gpu_context_create env w h st).egl = st) := by
  obtain ⟨cal, egl⟩ := env
  obtain ⟨d, i, cc, su, co, mc, v, r, ver⟩ := egl
  obtain ⟨dl, sf, cx⟩ := st
  simp only at hc hd
  subst hc
  subst hd
  cases d <;> cases i <;> cases cc <;> cases su <;> cases co <;> cases mc <;>
    simp [gpu_context_create, try_init_vulkan, try_init_opengl, try_init_opengles, eglAllOk]

/-- C4 witness: with the fully successful environment the three backends
are probed in order and the ES context is returned; the concrete returned
context is ctxGLES. -/
theorem C4_backend_priority_and_cleanup_witness :
    (gpu_context_create createEnvAllOk 640 480 eglInit).attempts
      = [BackendAttempt.vulkan, BackendAttempt.opengl, BackendAttempt.opengles] ∧
    (gpu_context_create createEnvAllOk 640 480 eglInit).ctx = some ctxGLES := by
  refine ⟨(C4_backend_priority_and_cleanup createEnvAllOk 640 480 eglInit rfl rfl).1, ?_⟩
  have h := (C4_backend_priority_and_cleanup createEnvAllOk 640 480 eglInit rfl rfl).2.1 rfl
  simpa [createEnvAllOk, eglEnvAllOk, ctxGLES] using h
